import Mathlib

/-!
Shallow embedding of the batching / table-splitting / transfer-orchestration
engine of the PythonETL repository (src/etl_transfer.py, src/database_manager.py).

Pure planning arithmetic (batch windows, split sizes) is translated directly.
Stateful orchestration is modelled by explicit environments describing the
outcomes of the external database operations (connection probes, row counts,
DDL successes, per-batch extract/load results) together with an event trace of
the mutating operations the orchestrator issues.  Wall-clock fields (duration,
transfer_rate) are outside the model.
-/

namespace PythonETL

/-- Outcome record produced by `process_batch` / `process_temp_table_batch`
(etl_transfer.py:229-267, 479-537): rows processed, success flag and optional
error description.  The `duration` field of the Python dict is wall-clock time
and is not modelled. -/
structure BatchOutcome where
  rows_processed : Nat
  success : Bool
  error : Option String
deriving Repr, DecidableEq

/-- Number of batches planned in `_transfer_data_traditional`
(etl_transfer.py:312) and `process_temp_table` (etl_transfer.py:570):
`total_batches = (total_rows + Config.BATCH_SIZE - 1) // Config.BATCH_SIZE`. -/
def totalBatches (totalRows batchSize : Nat) : Nat :=
  (totalRows + batchSize - 1) / batchSize

/-- Ordered (offset, limit) windows submitted to the pool in
`_transfer_data_traditional` (etl_transfer.py:327-329) and `process_temp_table`
(etl_transfer.py:581-583): `offset = batch_num * BATCH_SIZE`,
`limit = min(BATCH_SIZE, total_rows - offset)`. -/
def planWindows (totalRows batchSize : Nat) : List (Nat × Nat) :=
  (List.range (totalBatches totalRows batchSize)).map
    (fun batchNum => (batchNum * batchSize, min batchSize (totalRows - batchNum * batchSize)))

/-- A row index x lies in the half-open range described by window w. -/
def inWindow (w : Nat × Nat) (x : Nat) : Prop :=
  w.1 ≤ x ∧ x < w.1 + w.2

instance (w : Nat × Nat) (x : Nat) : Decidable (inWindow w x) := by
  unfold inWindow; infer_instance

/-- Per-split limit computed in `create_temp_tables_from_source`
(etl_transfer.py:432-454): `rows_per_split = total_rows // NUMBER_OF_SPLITS`,
`remaining_rows = total_rows % NUMBER_OF_SPLITS`, and for split index i the
limit is `rows_per_split + 1` if `i < remaining_rows` else `rows_per_split`. -/
def splitLimit (totalRows numSplits splitNum : Nat) : Nat :=
  if splitNum < totalRows % numSplits then totalRows / numSplits + 1
  else totalRows / numSplits

/-- Offset accumulation of the `create_temp_tables_from_source` loop
(etl_transfer.py:442-474): `current_offset` starts at 0 and advances by each
split's limit after the split is created. -/
def buildSegments (limits : List Nat) (start : Nat) : List (Nat × Nat) :=
  match limits with
  | [] => []
  | l :: ls => (start, l) :: buildSegments ls (start + l)

/-- The ordered (offset, limit) pairs used to populate the temporary tables in
`create_temp_tables_from_source` (etl_transfer.py:445-474). -/
def splitSegments (totalRows numSplits : Nat) : List (Nat × Nat) :=
  buildSegments ((List.range numSplits).map (splitLimit totalRows numSplits)) 0

/-- Row-count retrieval, `get_row_count` (database_manager.py:117-135): the
COUNT(*) query either produces a value or raises; any exception is caught,
logged, and turned into a return value of 0.  The argument is the external
query outcome (`none` means the query raised). -/
def get_row_count (queryResult : Option Nat) : Nat :=
  match queryResult with
  | some n => n
  | none => 0

/-- Python's floor division `//`; raises ZeroDivisionError on a zero divisor,
modelled as `none`.  `Int.fdiv` is floor division, matching Python. -/
def pyFloorDiv (a b : Int) : Option Int :=
  if b = 0 then none else some (Int.fdiv a b)

/-- Python's `%`; raises ZeroDivisionError on a zero divisor.  `Int.fmod`
takes the divisor's sign, matching Python. -/
def pyMod (a b : Int) : Option Int :=
  if b = 0 then none else some (Int.fmod a b)

/-- Mutating statements the engine issues against the databases, recorded in
issue order.  An event records that the statement was executed, whether or not
it succeeded. -/
inductive DbEvent
  | dropTargetTable
  | createTargetTable
  | truncateTarget
  | createTempTable (idx : Nat)
  | dropTempTable (idx : Nat)
deriving Repr, DecidableEq

/-- Log levels of the Python logging calls that matter to the claims. -/
inductive LogLevel
  | debug
  | info
  | warning
  | error
deriving Repr, DecidableEq

/-- External outcomes of the DDL statements issued while preparing the target
table. -/
structure DDLEnv where
  create_schema_ok : Bool
  drop_ok : Bool
  create_ok : Bool
deriving Repr, DecidableEq

/-- Target preparation, `create_table_if_not_exists`
(database_manager.py:137-178): first creates the schema (failure raises); if
`drop_if_exists` is set it executes DROP TABLE IF EXISTS ... CASCADE, but a
failure of the drop is caught and only logged — it is NOT re-raised, and
execution continues; then CREATE TABLE IF NOT EXISTS is executed (failure
raises).  Returns the raised-or-ok outcome together with the issued DDL
events.  Note the result does not depend on `env.drop_ok`: a drop failure is
swallowed. -/
def create_table_if_not_exists (drop_if_exists : Bool) (env : DDLEnv) :
    Except String Unit × List DbEvent :=
  if ¬env.create_schema_ok then
    (Except.error "Failed to create schema", [])
  else
    let dropEvents := if drop_if_exists then [DbEvent.dropTargetTable] else []
    if env.create_ok then
      (Except.ok (), dropEvents ++ [DbEvent.createTargetTable])
    else
      (Except.error "Failed to create table", dropEvents ++ [DbEvent.createTargetTable])

/-- Segment materialization, `create_temp_table_from_source`
(database_manager.py:212-254): executes CREATE TABLE ... AS SELECT with the
given offset/limit (outcome `create_ok`; any exception, including schema
creation, is caught and turned into a `false` return), then queries the
actual row count of the new table and logs it at info level.  The log is
returned as (level, reported row count) pairs (the error log carries no
count; 0 stands in).  The requested `limit` is used only inside the SQL
text: the actual row count is logged but never compared with it, and no
warning is ever emitted. -/
def create_temp_table_from_source (offset limit : Int) (create_ok : Bool)
    (count_query : Option Nat) : Bool × List (LogLevel × Nat) :=
  if create_ok then
    let actual_rows := get_row_count count_query
    (true, [(LogLevel.info, actual_rows)])
  else
    (false, [(LogLevel.error, 0)])

/-- Batch worker, `process_batch` (etl_transfer.py:229-267): extraction either
yields a row count or raises (the `Except.error` case carries the exception
message); any exception is caught inside the function and converted to a
failed outcome with 0 rows processed; an empty extraction is a success with 0
rows; otherwise `load_batch` is called, which itself catches all exceptions
and returns a boolean (`load_success`). -/
def process_batch (extract : Except String Nat) (load_success : Bool) : BatchOutcome :=
  match extract with
  | Except.error e => { rows_processed := 0, success := false, error := some e }
  | Except.ok rows =>
    if rows = 0 then { rows_processed := 0, success := true, error := none }
    else { rows_processed := rows, success := load_success,
           error := if load_success then none else some "Load failed" }

/-- Split-mode batch worker, `process_temp_table_batch`
(etl_transfer.py:479-537): structurally identical to `process_batch` —
extraction failure is caught and becomes a failed outcome with 0 rows, an
empty extraction is a success with 0 rows, otherwise the load's boolean
decides the outcome. -/
def process_temp_table_batch (extract : Except String Nat) (load_success : Bool) :
    BatchOutcome :=
  match extract with
  | Except.error e => { rows_processed := 0, success := false, error := some e }
  | Except.ok rows =>
    if rows = 0 then { rows_processed := 0, success := true, error := none }
    else { rows_processed := rows, success := load_success,
           error := if load_success then none else some "Load failed" }

/-- Outcome aggregation loop (etl_transfer.py:335-352, 594-605, 716-731): for
each completed unit, on success add its rows_processed and bump the success
counter, otherwise bump the failure counter.  Returns
(processed_rows, successful_units, failed_units).  The Python loop consumes
outcomes in completion order; all three accumulators are order-independent,
so the list order stands in for any completion order. -/
def aggregateOutcomes (outcomes : List BatchOutcome) : Nat × Nat × Nat :=
  outcomes.foldl
    (fun acc r =>
      if r.success then (acc.1 + r.rows_processed, acc.2.1 + 1, acc.2.2)
      else (acc.1, acc.2.1, acc.2.2 + 1))
    (0, 0, 0)

/-- Final report dict of a transfer run.  Fields that a given return path does
not populate are `none` (the generic exception path returns only
success/error; the empty-source path returns no failure counter).
`units_processed`/`units_failed` stand for `batches_processed`/`batches_failed`
in direct mode and `temp_tables_processed`/`temp_tables_failed` in split mode.
Wall-clock fields (duration, transfer_rate) are outside the model. -/
structure TransferResult where
  success : Bool
  rows_transferred : Option Nat
  units_processed : Option Nat
  units_failed : Option Nat
  target_rows : Option Nat
  error : Option String
deriving Repr, DecidableEq

/-- Failure report built by the orchestrators' outer exception handlers
(etl_transfer.py:381-387, 763-774). -/
def failResult (msg : String) : TransferResult :=
  { success := false, rows_transferred := none, units_processed := none,
    units_failed := none, target_rows := none, error := some msg }

/-- Environment of one traditional-mode run: external outcomes of every
operation `_transfer_data_traditional` performs.  `units i` is the
extract/load outcome pair the i-th dispatched batch will observe. -/
structure TradEnv where
  source_conn_ok : Bool
  target_conn_ok : Bool
  schema_found : Bool
  ddl : DDLEnv
  truncate_ok : Bool
  count_query : Option Nat
  batch_size : Int
  units : Nat → Except String Nat × Bool
  target_count_query : Option Nat

/-- Outcomes of the batches dispatched by `_transfer_data_traditional`
(etl_transfer.py:324-337), in dispatch order. -/
def tradOutcomes (env : TradEnv) (numBatches : Nat) : List BatchOutcome :=
  (List.range numBatches).map (fun i => process_batch (env.units i).1 (env.units i).2)

/-- Output of one orchestrator run: the returned result dict, the trace of
mutating statements issued, and the outcomes of the dispatched units in
dispatch order (empty when the run never dispatched any unit). -/
structure RunOutput where
  result : TransferResult
  events : List DbEvent
  outcomes : List BatchOutcome
deriving Repr, DecidableEq

/-- Steps 4-7 of `_transfer_data_traditional` (etl_transfer.py:299-379): row
count (0 short-circuits to a trivial success with nothing dispatched), batch
planning `(total_rows + BATCH_SIZE - 1) // BATCH_SIZE` (a ZeroDivisionError
from a zero batch size propagates to the outer handler; Python's
`range(n)` is empty for n ≤ 0, so a negative quotient dispatches nothing),
dispatch, aggregation, final target count, and the result dict with
`success = (failed_batches == 0)`. -/
def tradDispatch (env : TradEnv) (evs : List DbEvent) : RunOutput :=
  let total_rows := get_row_count env.count_query
  if total_rows = 0 then
    ⟨{ success := true, rows_transferred := some 0, units_processed := some 0,
       units_failed := none, target_rows := none, error := none }, evs, []⟩
  else
    match pyFloorDiv ((total_rows : Int) + env.batch_size - 1) env.batch_size with
    | none => ⟨failResult "integer division or modulo by zero", evs, []⟩
    | some tb =>
      let outcomes := tradOutcomes env tb.toNat
      let agg := aggregateOutcomes outcomes
      ⟨{ success := agg.2.2 == 0, rows_transferred := some agg.1,
         units_processed := some agg.2.1, units_failed := some agg.2.2,
         target_rows := some (get_row_count env.target_count_query),
         error := none }, evs, outcomes⟩

/-- Traditional transfer, `_transfer_data_traditional`
(etl_transfer.py:279-387): validate connections, fetch schema, prepare the
target (with `drop_target_if_exists` the table is dropped and recreated;
otherwise it is created if absent and then truncated — a truncate failure
raises), then the dispatch phase.  Any exception reaching the outer handler
becomes a failure result. -/
def transferDataTraditional (drop_target_if_exists : Bool) (env : TradEnv) : RunOutput :=
  if ¬(env.source_conn_ok && env.target_conn_ok) then
    ⟨failResult "Database connection validation failed", [], []⟩
  else if ¬env.schema_found then
    ⟨failResult "Could not retrieve schema", [], []⟩
  else
    match create_table_if_not_exists drop_target_if_exists env.ddl with
    | (Except.error e, evs) => ⟨failResult e, evs, []⟩
    | (Except.ok _, evs) =>
      if drop_target_if_exists then
        tradDispatch env evs
      else if env.truncate_ok then
        tradDispatch env (evs ++ [DbEvent.truncateTarget])
      else
        ⟨failResult "Failed to truncate table", evs ++ [DbEvent.truncateTarget], []⟩

/-- Environment of the splitting phase `create_temp_tables_from_source`:
source row count, configured number of splits (a Python int, possibly ≤ 0),
per-split creation outcomes, per-split post-creation count queries, and
per-split drop outcomes used during cleanup. -/
structure SplitCreateEnv where
  count_query : Option Nat
  num_splits : Int
  create_ok : Nat → Bool
  temp_count_query : Nat → Option Nat
  drop_ok : Nat → Bool

/-- Result of `create_temp_tables_from_source`: the returned name list (split
indices stand for the generated names) or the raised exception, the splits
actually materialized, the splits still existing afterwards (materialized and
not successfully dropped), and the issued events. -/
structure SplitCreateResult where
  result : Except String (List Nat)
  created : List Nat
  remaining : List Nat
  events : List DbEvent

/-- The split-creation loop of `create_temp_tables_from_source`
(etl_transfer.py:445-474): for each split index, compute the limit
(`rows_per_split + 1` for indices below `remaining_rows`), issue the
CREATE TABLE AS; on a `false` return, call `cleanup_temp_tables` on every
name appended so far (the failing name included — its DROP IF EXISTS is a
no-op) and raise; otherwise advance the offset and continue. -/
def createTempTablesLoop (create_ok : Nat → Bool) (temp_count : Nat → Option Nat)
    (drop_ok : Nat → Bool) (rows_per_split remaining_rows : Int) (numSplits : Nat)
    (split_num : Nat) (current_offset : Int) (names : List Nat) : SplitCreateResult :=
  if h : split_num < numSplits then
    let limit := if (split_num : Int) < remaining_rows then rows_per_split + 1
                 else rows_per_split
    let creation := create_temp_table_from_source current_offset limit
      (create_ok split_num) (temp_count split_num)
    if creation.1 then
      let rec_result := createTempTablesLoop create_ok temp_count drop_ok rows_per_split
        remaining_rows numSplits (split_num + 1) (current_offset + limit)
        (names ++ [split_num])
      { rec_result with events := DbEvent.createTempTable split_num :: rec_result.events }
    else
      { result := Except.error "Failed to create temporary table",
        created := names,
        remaining := names.filter (fun i => !(drop_ok i)),
        events := DbEvent.createTempTable split_num ::
          (names ++ [split_num]).map DbEvent.dropTempTable }
  else
    { result := Except.ok names, created := names, remaining := names, events := [] }
termination_by numSplits - split_num

/-- Table splitting, `create_temp_tables_from_source` (etl_transfer.py:417-477):
an empty source yields an empty name list without touching the database;
otherwise `rows_per_split = total_rows // NUMBER_OF_SPLITS` and
`remaining_rows = total_rows % NUMBER_OF_SPLITS` (ZeroDivisionError raises for
a zero split count) and the creation loop runs over `range(NUMBER_OF_SPLITS)`
(empty for a negative split count, returning an empty name list). -/
def createTempTablesFromSource (env : SplitCreateEnv) : SplitCreateResult :=
  let total_rows := get_row_count env.count_query
  if total_rows = 0 then
    { result := Except.ok [], created := [], remaining := [], events := [] }
  else
    match pyFloorDiv (total_rows : Int) env.num_splits,
          pyMod (total_rows : Int) env.num_splits with
    | some rps, some rem =>
      createTempTablesLoop env.create_ok env.temp_count_query env.drop_ok rps rem
        env.num_splits.toNat 0 0 []
    | _, _ =>
      { result := Except.error "integer division or modulo by zero",
        created := [], remaining := [], events := [] }

/-- Environment of one temporary table's processing in `process_temp_table`
(etl_transfer.py:539-632): its row count and the extract/load outcomes of its
batches. -/
structure TempTableEnv where
  count_query : Option Nat
  units : Nat → Except String Nat × Bool

/-- Outcomes of the batches dispatched by `process_temp_table`
(etl_transfer.py:578-597), in dispatch order. -/
def tempTableOutcomes (env : TempTableEnv) (numBatches : Nat) : List BatchOutcome :=
  (List.range numBatches).map
    (fun i => process_temp_table_batch (env.units i).1 (env.units i).2)

/-- Per-segment processing, `process_temp_table` (etl_transfer.py:539-632):
count the segment's rows (0 short-circuits to success), plan
`(rows + BATCH_SIZE - 1) // BATCH_SIZE` batches, dispatch them, aggregate,
and return an outcome with `success = (failed_batches == 0)`; any exception
(e.g. ZeroDivisionError from the planning step) is caught and becomes a
failed outcome with 0 rows. -/
def process_temp_table (batch_size : Int) (env : TempTableEnv) : BatchOutcome :=
  let temp_table_rows := get_row_count env.count_query
  if temp_table_rows = 0 then
    { rows_processed := 0, success := true, error := none }
  else
    match pyFloorDiv ((temp_table_rows : Int) + batch_size - 1) batch_size with
    | none => { rows_processed := 0, success := false,
                error := some "integer division or modulo by zero" }
    | some tb =>
      let outcomes := tempTableOutcomes env tb.toNat
      let agg := aggregateOutcomes outcomes
      { rows_processed := agg.1, success := agg.2.2 == 0,
        error := if agg.2.2 == 0 then none else some "batches failed" }

/-- Environment of one split-mode run, `transfer_data_with_splitting`. -/
structure SplitRunEnv where
  source_conn_ok : Bool
  target_conn_ok : Bool
  schema_found : Bool
  ddl : DDLEnv
  truncate_ok : Bool
  splitEnv : SplitCreateEnv
  batch_size : Int
  temp_envs : Nat → TempTableEnv
  target_count_query : Option Nat

/-- Steps 4-7 of `transfer_data_with_splitting` (etl_transfer.py:696-761):
create the temporary tables (a raise there is caught by the outer handler —
the local name list is still empty, so the handler's extra cleanup drops
nothing beyond what `create_temp_tables_from_source` already dropped), an
empty name list short-circuits to a trivial success, otherwise the segments
are processed sequentially, aggregated with
`success = (failed_temp_tables == 0)`, and the segments are dropped
unconditionally before the final target count. -/
def splitDispatch (env : SplitRunEnv) (evs1 : List DbEvent) : RunOutput :=
  match (createTempTablesFromSource env.splitEnv).result with
  | Except.error e =>
    ⟨failResult e, evs1 ++ (createTempTablesFromSource env.splitEnv).events, []⟩
  | Except.ok names =>
    if names = [] then
      ⟨{ success := true, rows_transferred := some 0, units_processed := some 0,
         units_failed := none, target_rows := none, error := none },
       evs1 ++ (createTempTablesFromSource env.splitEnv).events, []⟩
    else
      let outcomes := names.map
        (fun i => process_temp_table env.batch_size (env.temp_envs i))
      let agg := aggregateOutcomes outcomes
      ⟨{ success := agg.2.2 == 0, rows_transferred := some agg.1,
         units_processed := some agg.2.1, units_failed := some agg.2.2,
         target_rows := some (get_row_count env.target_count_query),
         error := none },
       evs1 ++ (createTempTablesFromSource env.splitEnv).events ++
         names.map DbEvent.dropTempTable, outcomes⟩

/-- Split-mode transfer, `transfer_data_with_splitting`
(etl_transfer.py:660-774): validate, fetch schema, prepare target (as in the
traditional path), then the splitting dispatch phase. -/
def transferDataWithSplitting (drop_target_if_exists : Bool) (env : SplitRunEnv) :
    RunOutput :=
  if ¬(env.source_conn_ok && env.target_conn_ok) then
    ⟨failResult "Database connection validation failed", [], []⟩
  else if ¬env.schema_found then
    ⟨failResult "Could not retrieve schema", [], []⟩
  else
    match create_table_if_not_exists drop_target_if_exists env.ddl with
    | (Except.error e, evs) => ⟨failResult e, evs, []⟩
    | (Except.ok _, evs) =>
      if drop_target_if_exists then
        splitDispatch env evs
      else if env.truncate_ok then
        splitDispatch env (evs ++ [DbEvent.truncateTarget])
      else
        ⟨failResult "Failed to truncate table", evs ++ [DbEvent.truncateTarget], []⟩

/-- Concrete traditional-mode environment used to instantiate theorems:
healthy connections and schema, the given DDL outcomes, source count outcome
and batch size, units that extract one row and load successfully. -/
def mkTradEnv (ddl : DDLEnv) (cnt : Option Nat) (bs : Int) : TradEnv :=
  { source_conn_ok := true, target_conn_ok := true, schema_found := true,
    ddl := ddl, truncate_ok := true, count_query := cnt, batch_size := bs,
    units := fun _ => (Except.ok 1, true), target_count_query := some 0 }

/-- Concrete split-creation environment used to instantiate theorems. -/
def mkSplitCreateEnv (cnt : Option Nat) (ns : Int) (cok : Nat → Bool) : SplitCreateEnv :=
  { count_query := cnt, num_splits := ns, create_ok := cok,
    temp_count_query := fun _ => some 0, drop_ok := fun _ => true }

/-- Concrete split-mode run environment used to instantiate theorems. -/
def mkSplitRunEnv (ddl : DDLEnv) (sce : SplitCreateEnv) (bs : Int) : SplitRunEnv :=
  { source_conn_ok := true, target_conn_ok := true, schema_found := true,
    ddl := ddl, truncate_ok := true, splitEnv := sce, batch_size := bs,
    temp_envs := fun _ => { count_query := some 1, units := fun _ => (Except.ok 1, true) },
    target_count_query := some 0 }

theorem totalBatches_eq_ceil (N B : Nat) (hB : 0 < B) :
    totalBatches N B = N / B + (if N % B = 0 then 0 else 1) := by
  unfold totalBatches
  rcases Nat.eq_zero_or_pos N with h0 | hN
  · subst h0
    simp [Nat.div_eq_of_lt (show B - 1 < B by omega)]
  · have h1 : N + B - 1 = N - 1 + B := by omega
    have h2 : N - 1 + 1 = N := by omega
    have h3 : N / B = (N - 1) / B + if B ∣ N then 1 else 0 := by
      conv_lhs => rw [← h2]
      rw [Nat.succ_div, h2]
    rw [h1, Nat.add_div_right _ hB, h3]
    by_cases hd : B ∣ N
    · rw [if_pos hd, if_pos (Nat.dvd_iff_mod_eq_zero.mp hd)]
    · rw [if_neg hd, if_neg (fun hz => hd (Nat.dvd_iff_mod_eq_zero.mpr hz))]

theorem mul_lt_of_lt_totalBatches (N B i : Nat) (hB : 0 < B)
    (h : i < totalBatches N B) : i * B < N := by
  rw [totalBatches_eq_ceil N B hB] at h
  have hd := Nat.div_add_mod N B
  have hmul : i ≤ N / B → i * B ≤ N / B * B := fun hle => Nat.mul_le_mul_right _ hle
  have hdm : N / B * B = B * (N / B) := Nat.mul_comm _ _
  by_cases h0 : N % B = 0
  · rw [if_pos h0] at h
    have h1 : i + 1 ≤ N / B := h
    have h2 : (i + 1) * B ≤ N / B * B := Nat.mul_le_mul_right _ h1
    rw [Nat.succ_mul] at h2
    omega
  · rw [if_neg h0] at h
    have h1 : i ≤ N / B := by omega
    have h2 := hmul h1
    omega

theorem le_totalBatches_mul (N B : Nat) (hB : 0 < B) :
    N ≤ totalBatches N B * B := by
  rw [totalBatches_eq_ceil N B hB]
  have hd := Nat.div_add_mod N B
  have hrB : N % B < B := Nat.mod_lt _ hB
  by_cases h0 : N % B = 0
  · rw [if_pos h0]
    have : (N / B + 0) * B = B * (N / B) := by rw [Nat.add_zero, Nat.mul_comm]
    omega
  · rw [if_neg h0]
    have : (N / B + 1) * B = B * (N / B) + B := by
      rw [Nat.add_mul, Nat.one_mul, Nat.mul_comm]
    omega

theorem planWindows_length (N B : Nat) :
    (planWindows N B).length = totalBatches N B := by
  simp [planWindows]

theorem planWindows_get (N B i : Nat) (hi : i < (planWindows N B).length) :
    (planWindows N B).get ⟨i, hi⟩ = (i * B, min B (N - i * B)) := by
  simp [planWindows, List.get_eq_getElem]

theorem sum_range_min (B : Nat) : ∀ k N,
    (((List.range k).map (fun i => min B (N - i * B))).sum) = min (k * B) N := by
  intro k
  induction k with
  | zero => intro N; simp
  | succ k ih =>
    intro N
    rw [List.range_succ, List.map_append, List.sum_append]
    simp only [List.map_cons, List.map_nil, List.sum_cons, List.sum_nil]
    rw [ih N, Nat.succ_mul]
    omega

theorem planWindows_sum (N B : Nat) (hB : 0 < B) :
    ((planWindows N B).map Prod.snd).sum = N := by
  unfold planWindows
  rw [List.map_map]
  have h1 : (Prod.snd ∘ fun batchNum =>
      ((batchNum * B : Nat), min B (N - batchNum * B))) =
      (fun i => min B (N - i * B)) := rfl
  rw [h1, sum_range_min]
  have := le_totalBatches_mul N B hB
  omega

/-- C1: for every totalRows ≥ 0 and batchSize > 0 the planned windows
(offset i*B, limit min(B, N - i*B)) number exactly ceil(N/B), every window's
offset is i*B, all but the last have limit exactly B, every window's limit is
in [1, B], the limits sum to N, and the windows partition [0, N): every row
index below N lies in some window, and no row index lies in two distinct
windows. -/
theorem batch_planning_partition (N B : Nat) (hB : 0 < B) :
    (planWindows N B).length = N / B + (if N % B = 0 then 0 else 1) ∧
    (∀ i (hi : i < (planWindows N B).length),
       ((planWindows N B).get ⟨i, hi⟩).1 = i * B) ∧
    (∀ i (hi : i < (planWindows N B).length), i + 1 < (planWindows N B).length →
       ((planWindows N B).get ⟨i, hi⟩).2 = B) ∧
    (∀ i (hi : i < (planWindows N B).length),
       1 ≤ ((planWindows N B).get ⟨i, hi⟩).2 ∧ ((planWindows N B).get ⟨i, hi⟩).2 ≤ B) ∧
    ((planWindows N B).map Prod.snd).sum = N ∧
    (∀ x, x < N ↔ ∃ w ∈ planWindows N B, inWindow w x) ∧
    (∀ x i j (hi : i < (planWindows N B).length) (hj : j < (planWindows N B).length),
       inWindow ((planWindows N B).get ⟨i, hi⟩) x →
       inWindow ((planWindows N B).get ⟨j, hj⟩) x → i = j) := by
  have hlen := planWindows_length N B
  refine ⟨by rw [hlen]; exact totalBatches_eq_ceil N B hB, ?_, ?_, ?_, planWindows_sum N B hB, ?_, ?_⟩
  · intro i hi
    rw [planWindows_get]
  · intro i hi hnext
    rw [planWindows_get]
    have h1 : i + 1 < totalBatches N B := by omega
    have h2 := mul_lt_of_lt_totalBatches N B (i + 1) hB h1
    rw [Nat.succ_mul] at h2
    simp only
    omega
  · intro i hi
    rw [planWindows_get]
    have h1 : i < totalBatches N B := by omega
    have h2 := mul_lt_of_lt_totalBatches N B i hB h1
    constructor <;> simp only <;> omega
  · intro x
    constructor
    · intro hx
      refine ⟨(x / B * B, min B (N - x / B * B)), ?_, ?_⟩
      · unfold planWindows
        refine List.mem_map.mpr ⟨x / B, List.mem_range.mpr ?_, rfl⟩
        have hc := le_totalBatches_mul N B hB
        have hcomm : totalBatches N B * B = B * totalBatches N B := Nat.mul_comm _ _
        exact Nat.div_lt_of_lt_mul (by omega)
      · have h1 : x / B * B ≤ x := Nat.div_mul_le_self x B
        have h2 := Nat.div_add_mod x B
        have h3 : x % B < B := Nat.mod_lt _ hB
        have h4 : x / B * B = B * (x / B) := Nat.mul_comm _ _
        exact ⟨h1, by simp only; omega⟩
    · rintro ⟨w, hw, hin⟩
      unfold planWindows at hw
      obtain ⟨i, hi, rfl⟩ := List.mem_map.mp hw
      obtain ⟨hle, hlt⟩ := hin
      simp only at hle hlt
      omega
  · intro x i j hi hj hin1 hin2
    rw [planWindows_get] at hin1 hin2
    obtain ⟨hle1, hlt1⟩ := hin1
    obtain ⟨hle2, hlt2⟩ := hin2
    simp only at hle1 hlt1 hle2 hlt2
    rcases Nat.lt_trichotomy i j with h | h | h
    · exfalso
      have : (i + 1) * B ≤ j * B := Nat.mul_le_mul_right _ (by omega)
      rw [Nat.succ_mul] at this
      omega
    · exact h
    · exfalso
      have : (j + 1) * B ≤ i * B := Nat.mul_le_mul_right _ (by omega)
      rw [Nat.succ_mul] at this
      omega

/-- Witness: the batch-planning theorem instantiated at totalRows = 25,
batchSize = 10 (the spec's worked example: windows (0,10), (10,10), (20,5)). -/
theorem batch_planning_partition_witness :
    0 < 10 ∧ (planWindows 25 10).length = 25 / 10 + (if 25 % 10 = 0 then 0 else 1) :=
  ⟨by decide, (batch_planning_partition 25 10 (by decide)).1⟩

theorem buildSegments_length (limits : List Nat) (start : Nat) :
    (buildSegments limits start).length = limits.length := by
  induction limits generalizing start with
  | nil => rfl
  | cons l ls ih => simp [buildSegments, ih]

theorem buildSegments_getElem? (limits : List Nat) (start i : Nat) :
    (buildSegments limits start)[i]? =
      limits[i]?.map (fun l => (start + (limits.take i).sum, l)) := by
  induction limits generalizing start i with
  | nil => simp [buildSegments]
  | cons l ls ih =>
    cases i with
    | zero => simp [buildSegments]
    | succ n =>
      simp only [buildSegments, List.getElem?_cons_succ, ih, List.take_succ_cons,
        List.sum_cons]
      cases h : ls[n]? <;> simp [h, Nat.add_assoc]

theorem buildSegments_sum_snd (limits : List Nat) (start : Nat) :
    ((buildSegments limits start).map Prod.snd).sum = limits.sum := by
  induction limits generalizing start with
  | nil => rfl
  | cons l ls ih => simp [buildSegments, ih]

theorem buildSegments_mem_iff (limits : List Nat) (start x : Nat) :
    (∃ seg ∈ buildSegments limits start, inWindow seg x) ↔
      start ≤ x ∧ x < start + limits.sum := by
  induction limits generalizing start with
  | nil =>
    simp only [buildSegments, List.sum_nil]
    constructor
    · rintro ⟨seg, hseg, -⟩
      simp at hseg
    · rintro ⟨h1, h2⟩
      exfalso
      omega
  | cons l ls ih =>
    constructor
    · rintro ⟨seg, hseg, hin⟩
      rcases List.mem_cons.mp hseg with rfl | hmem
      · obtain ⟨h1, h2⟩ := hin
        simp only at h1 h2
        simp only [List.sum_cons]
        omega
      · have h3 := (ih (start + l)).mp ⟨seg, hmem, hin⟩
        simp only [List.sum_cons]
        omega
    · intro hx
      simp only [List.sum_cons] at hx
      by_cases hcase : x < start + l
      · exact ⟨(start, l), List.mem_cons_self _ _, hx.1, hcase⟩
      · obtain ⟨seg, hmem, hin⟩ := (ih (start + l)).mpr ⟨by omega, by omega⟩
        exact ⟨seg, List.mem_cons_of_mem _ hmem, hin⟩

theorem take_sum_mono (ls : List Nat) (i j : Nat) (h : i ≤ j) :
    (ls.take i).sum ≤ (ls.take j).sum := by
  have h2 : ls.take j = ls.take i ++ ((ls.drop i).take (j - i)) := by
    rw [← List.take_add]
    congr 1
    omega
  rw [h2, List.sum_append]
  omega

theorem take_succ_sum (ls : List Nat) (i : Nat) (hi : i < ls.length) :
    (ls.take (i + 1)).sum = (ls.take i).sum + ls.get ⟨i, hi⟩ := by
  rw [List.take_succ, List.sum_append, List.getElem?_eq_getElem hi]
  simp [List.get_eq_getElem]

theorem buildSegments_get (limits : List Nat) (start i : Nat)
    (hi : i < (buildSegments limits start).length) :
    (buildSegments limits start).get ⟨i, hi⟩ =
      (start + (limits.take i).sum,
       limits.get ⟨i, by rw [← buildSegments_length limits start]; exact hi⟩) := by
  have hlen : i < limits.length := by rw [← buildSegments_length limits start]; exact hi
  have h1 := buildSegments_getElem? limits start i
  rw [List.getElem?_eq_getElem hi, List.getElem?_eq_getElem hlen] at h1
  simp only [Option.map_some'] at h1
  have h3 := Option.some.inj h1
  simp only [List.get_eq_getElem] at h3 ⊢
  exact h3

theorem buildSegments_unique (limits : List Nat) (start x i j : Nat)
    (hi : i < (buildSegments limits start).length)
    (hj : j < (buildSegments limits start).length)
    (h1 : inWindow ((buildSegments limits start).get ⟨i, hi⟩) x)
    (h2 : inWindow ((buildSegments limits start).get ⟨j, hj⟩) x) : i = j := by
  have hleni : i < limits.length := by rw [← buildSegments_length limits start]; exact hi
  have hlenj : j < limits.length := by rw [← buildSegments_length limits start]; exact hj
  rw [buildSegments_get] at h1 h2
  obtain ⟨ha1, ha2⟩ := h1
  obtain ⟨hb1, hb2⟩ := h2
  simp only at ha1 ha2 hb1 hb2
  rcases Nat.lt_trichotomy i j with h | h | h
  · exfalso
    have hs1 := take_succ_sum limits i hleni
    have hs2 := take_sum_mono limits (i + 1) j (by omega)
    omega
  · exact h
  · exfalso
    have hs1 := take_succ_sum limits j hlenj
    have hs2 := take_sum_mono limits (j + 1) i (by omega)
    omega

theorem sum_splitLimit (N k : Nat) : ∀ j,
    ((List.range j).map (splitLimit N k)).sum = j * (N / k) + min j (N % k) := by
  intro j
  induction j with
  | zero => simp
  | succ j ih =>
    rw [List.range_succ, List.map_append, List.sum_append]
    simp only [List.map_cons, List.map_nil, List.sum_cons, List.sum_nil]
    rw [ih, Nat.succ_mul]
    unfold splitLimit
    by_cases h : j < N % k
    · rw [if_pos h]; omega
    · rw [if_neg h]; omega

theorem count_splitLimit (N k : Nat) (hk : 0 < k) : ∀ j,
    ((List.range j).map (splitLimit N k)).countP (fun l => decide (l = N / k + 1)) =
      min j (N % k) := by
  intro j
  induction j with
  | zero => simp
  | succ j ih =>
    rw [List.range_succ, List.map_append, List.countP_append, ih]
    have hone : (List.map (splitLimit N k) [j]).countP (fun l => decide (l = N / k + 1)) =
        if splitLimit N k j = N / k + 1 then 1 else 0 := by
      simp [List.countP_cons]
    rw [hone]
    unfold splitLimit
    by_cases h : j < N % k
    · rw [if_pos h, if_pos rfl]
      omega
    · rw [if_neg h, if_neg (by omega)]
      omega

theorem splitSegments_length (N k : Nat) : (splitSegments N k).length = k := by
  rw [splitSegments, buildSegments_length, List.length_map, List.length_range]

theorem splitSegments_get (N k i : Nat) (hi : i < (splitSegments N k).length) :
    (splitSegments N k).get ⟨i, hi⟩ =
      (((List.range i).map (splitLimit N k)).sum, splitLimit N k i) := by
  have hik : i < k := by rw [← splitSegments_length N k]; exact hi
  have h1 : (splitSegments N k)[i]? = some ((splitSegments N k).get ⟨i, hi⟩) := by
    rw [List.getElem?_eq_getElem hi]
    simp [List.get_eq_getElem]
  have hlen : i < ((List.range k).map (splitLimit N k)).length := by
    simp [hik]
  have htake : ((List.range k).map (splitLimit N k)).take i =
      (List.range i).map (splitLimit N k) := by
    rw [← List.map_take, List.take_range, Nat.min_eq_left (Nat.le_of_lt hik)]
  have h2 : (splitSegments N k)[i]? =
      some (((List.range i).map (splitLimit N k)).sum, splitLimit N k i) := by
    unfold splitSegments
    rw [buildSegments_getElem?, List.getElem?_eq_getElem hlen]
    simp only [Option.map_some']
    rw [htake]
    simp [List.getElem_map, List.getElem_range]
  rw [h1] at h2
  exact Option.some.inj h2

/-- C2: for totalRows > 0 and numSplits > 0, with base = totalRows / numSplits
and rem = totalRows % numSplits, the splitter produces numSplits segments,
segment i has size base+1 if i < rem else base, the sizes sum to totalRows,
exactly rem segments have size base+1, each segment's offset is the sum of the
previous segments' limits (accumulating monotonically from 0), and the
(offset, limit) pairs partition [0, totalRows): every row index below totalRows
lies in exactly one segment. -/
theorem table_splitting_partition (N k : Nat) (hN : 0 < N) (hk : 0 < k) :
    (splitSegments N k).length = k ∧
    (∀ i (hi : i < (splitSegments N k).length),
       ((splitSegments N k).get ⟨i, hi⟩).2 =
         if i < N % k then N / k + 1 else N / k) ∧
    ((splitSegments N k).map Prod.snd).sum = N ∧
    (splitSegments N k).countP (fun seg => decide (seg.2 = N / k + 1)) = N % k ∧
    (∀ i (hi : i < (splitSegments N k).length),
       ((splitSegments N k).get ⟨i, hi⟩).1 =
         ((List.range i).map (splitLimit N k)).sum) ∧
    (∀ x, x < N ↔ ∃ seg ∈ splitSegments N k, inWindow seg x) ∧
    (∀ x i j (hi : i < (splitSegments N k).length) (hj : j < (splitSegments N k).length),
       inWindow ((splitSegments N k).get ⟨i, hi⟩) x →
       inWindow ((splitSegments N k).get ⟨j, hj⟩) x → i = j) := by
  have hmod : N % k < k := Nat.mod_lt _ hk
  have hdm := Nat.div_add_mod N k
  have hsum : ((List.range k).map (splitLimit N k)).sum = N := by
    rw [sum_splitLimit N k k]
    have h1 : min k (N % k) = N % k := by omega
    rw [h1]
    have h2 : k * (N / k) = N / k * k := Nat.mul_comm _ _
    omega
  refine ⟨splitSegments_length N k, ?_, ?_, ?_, ?_, ?_, ?_⟩
  · intro i hi
    rw [splitSegments_get]
    rfl
  · unfold splitSegments
    rw [buildSegments_sum_snd, hsum]
  · have hcount : ∀ (ls : List Nat) (s : Nat),
        (buildSegments ls s).countP (fun seg => decide (seg.2 = N / k + 1)) =
          ls.countP (fun l => decide (l = N / k + 1)) := by
      intro ls
      induction ls with
      | nil => intro s; rfl
      | cons l ls ih =>
        intro s
        simp [buildSegments, List.countP_cons, ih]
    unfold splitSegments
    rw [hcount, count_splitLimit N k hk k]
    omega
  · intro i hi
    rw [splitSegments_get]
  · intro x
    unfold splitSegments
    rw [buildSegments_mem_iff, hsum]
    omega
  · intro x i j hi hj h1 h2
    exact buildSegments_unique _ _ x i j hi hj h1 h2

/-- Witness: the table-splitting theorem instantiated at totalRows = 25,
numSplits = 4 (the spec's worked example: segment sizes 7, 6, 6, 6). -/
theorem table_splitting_partition_witness :
    0 < 25 ∧ 0 < 4 ∧ (splitSegments 25 4).length = 4 :=
  ⟨by decide, by decide, (table_splitting_partition 25 4 (by decide) (by decide)).1⟩

theorem fdiv_le_zero_of_lt (a b : Int) (hb : b ≤ -1) (hab : b < a) : a.fdiv b ≤ 0 := by
  match a, b with
  | _, Int.ofNat n =>
    exfalso
    have h0 : (0 : Int) ≤ Int.ofNat n := Int.ofNat_nonneg n
    omega
  | Int.ofNat 0, Int.negSucc n => simp [Int.fdiv]
  | Int.ofNat (m+1), Int.negSucc n =>
    show Int.negSucc (m / (n+1)) ≤ 0
    exact Int.le_of_lt (Int.negSucc_lt_zero _)
  | Int.negSucc m, Int.negSucc n =>
    show (Int.ofNat ((m+1) / (n+1)) : Int) ≤ 0
    have e1 : Int.negSucc n = -((n : Int) + 1) := Int.negSucc_eq n
    have e2 : Int.negSucc m = -((m : Int) + 1) := Int.negSucc_eq m
    rw [e1, e2] at hab
    have hmn : m < n := by omega
    have hz : (m+1) / (n+1) = 0 := Nat.div_eq_of_lt (by omega)
    rw [hz]
    exact Int.le_refl 0

theorem aggregateOutcomes_foldl (l : List BatchOutcome) : ∀ acc : Nat × Nat × Nat,
    l.foldl
      (fun acc r =>
        if r.success then (acc.1 + r.rows_processed, acc.2.1 + 1, acc.2.2)
        else (acc.1, acc.2.1, acc.2.2 + 1)) acc =
      (acc.1 + ((l.filter BatchOutcome.success).map BatchOutcome.rows_processed).sum,
       acc.2.1 + (l.filter BatchOutcome.success).length,
       acc.2.2 + (l.filter (fun r => !r.success)).length) := by
  induction l with
  | nil => intro acc; simp
  | cons r rs ih =>
    intro acc
    simp only [List.foldl_cons]
    by_cases h : r.success = true
    · rw [if_pos h, ih]
      rw [List.filter_cons_of_pos h, List.filter_cons_of_neg (by simp [h])]
      simp only [List.map_cons, List.sum_cons, List.length_cons, Prod.mk.injEq]
      refine ⟨?_, ?_, ?_⟩ <;> first | trivial | omega
    · rw [if_neg h, ih]
      rw [List.filter_cons_of_neg h, List.filter_cons_of_pos (by simp [h])]
      simp only [List.length_cons, Prod.mk.injEq]
      refine ⟨?_, ?_, ?_⟩ <;> first | trivial | omega

theorem aggregateOutcomes_eq (l : List BatchOutcome) :
    aggregateOutcomes l =
      (((l.filter BatchOutcome.success).map BatchOutcome.rows_processed).sum,
       (l.filter BatchOutcome.success).length,
       (l.filter (fun r => !r.success)).length) := by
  unfold aggregateOutcomes
  rw [aggregateOutcomes_foldl]
  simp

/-- C4: any exception during a unit's extract or load is caught inside the
unit's processing function (both `process_batch` and
`process_temp_table_batch`), which returns — never raises — a BatchOutcome:
an extraction failure gives success = false, rows_processed = 0 and the
exception's message as the error string; a failed load of a non-empty
extraction gives success = false with the descriptive "Load failed" error
(the extracted row count recorded); and in both dispatch models (traditional
batches and a temporary table's batches) the outcome of one dispatched unit
is unaffected by changing another unit's environment: a failure never
propagates to sibling units. -/
theorem unit_boundary_error_capture :
    (∀ (e : String) (load : Bool),
       process_batch (Except.error e) load =
         { rows_processed := 0, success := false, error := some e } ∧
       process_temp_table_batch (Except.error e) load =
         { rows_processed := 0, success := false, error := some e }) ∧
    (∀ rows : Nat, rows ≠ 0 →
       process_batch (Except.ok rows) false =
         { rows_processed := rows, success := false, error := some "Load failed" } ∧
       process_temp_table_batch (Except.ok rows) false =
         { rows_processed := rows, success := false, error := some "Load failed" }) ∧
    (∀ (env : TradEnv) (numBatches i j : Nat) (u : Except String Nat × Bool),
       i ≠ j →
       (tradOutcomes { env with units := Function.update env.units i u } numBatches)[j]? =
         (tradOutcomes env numBatches)[j]?) ∧
    (∀ (tenv : TempTableEnv) (numBatches i j : Nat) (u : Except String Nat × Bool),
       i ≠ j →
       (tempTableOutcomes { tenv with units := Function.update tenv.units i u }
           numBatches)[j]? =
         (tempTableOutcomes tenv numBatches)[j]?) := by
  refine ⟨?_, ?_, ?_, ?_⟩
  · intro e load
    exact ⟨rfl, rfl⟩
  · intro rows hrows
    constructor <;> simp [process_batch, process_temp_table_batch, hrows]
  · intro env numBatches i j u hij
    unfold tradOutcomes
    rcases Nat.lt_or_ge j numBatches with hj | hj
    · rw [List.getElem?_map, List.getElem?_map,
        List.getElem?_eq_getElem (by simpa using hj)]
      simp only [List.getElem_range, Option.map_some']
      rw [Function.update_noteq (by omega)]
    · rw [List.getElem?_map, List.getElem?_map,
        List.getElem?_eq_none (by simpa using hj)]
      rfl
  · intro tenv numBatches i j u hij
    unfold tempTableOutcomes
    rcases Nat.lt_or_ge j numBatches with hj | hj
    · rw [List.getElem?_map, List.getElem?_map,
        List.getElem?_eq_getElem (by simpa using hj)]
      simp only [List.getElem_range, Option.map_some']
      rw [Function.update_noteq (by omega)]
    · rw [List.getElem?_map, List.getElem?_map,
        List.getElem?_eq_none (by simpa using hj)]
      rfl

/-- Witness: an extraction failure and a load failure in a unit are each
captured as a returned failed outcome, and changing unit 0's environment
leaves unit 1's outcome unchanged in both dispatch models. -/
theorem unit_boundary_error_capture_witness :
    (process_batch (Except.error "boom") true =
       { rows_processed := 0, success := false, error := some "boom" }) ∧
    ((3 : Nat) ≠ 0) ∧
    (process_temp_table_batch (Except.ok 3) false =
       { rows_processed := 3, success := false, error := some "Load failed" }) ∧
    ((0 : Nat) ≠ 1) ∧
    ((tradOutcomes { mkTradEnv ⟨true, true, true⟩ (some 5) 2 with
        units := Function.update (mkTradEnv ⟨true, true, true⟩ (some 5) 2).units 0
          (Except.error "boom", false) } 3)[1]? =
      (tradOutcomes (mkTradEnv ⟨true, true, true⟩ (some 5) 2) 3)[1]?) ∧
    ((tempTableOutcomes { (⟨some 5, fun _ => (Except.ok 1, true)⟩ : TempTableEnv) with
        units := Function.update
          (⟨some 5, fun _ => (Except.ok 1, true)⟩ : TempTableEnv).units 0
          (Except.error "boom", false) } 3)[1]? =
      (tempTableOutcomes (⟨some 5, fun _ => (Except.ok 1, true)⟩ : TempTableEnv) 3)[1]?) :=
  ⟨(unit_boundary_error_capture.1 "boom" true).1, by decide,
   (unit_boundary_error_capture.2.1 3 (by decide)).2, by decide,
   unit_boundary_error_capture.2.2.1 (mkTradEnv ⟨true, true, true⟩ (some 5) 2) 3 0 1
     (Except.error "boom", false) (by decide),
   unit_boundary_error_capture.2.2.2 (⟨some 5, fun _ => (Except.ok 1, true)⟩ : TempTableEnv)
     3 0 1 (Except.error "boom", false) (by decide)⟩

theorem transferDataTraditional_prep_ok (dflag : Bool) (env : TradEnv)
    (h1 : env.source_conn_ok = true) (h2 : env.target_conn_ok = true)
    (h3 : env.schema_found = true) (h4 : env.ddl.create_schema_ok = true)
    (h5 : env.ddl.create_ok = true) (h6 : dflag = true ∨ env.truncate_ok = true) :
    transferDataTraditional dflag env =
      tradDispatch env
        ((if dflag then [DbEvent.dropTargetTable] else []) ++ [DbEvent.createTargetTable] ++
         (if dflag then [] else [DbEvent.truncateTarget])) := by
  unfold transferDataTraditional create_table_if_not_exists
  rw [h1, h2, h3, h4, h5]
  cases dflag with
  | false =>
    rcases h6 with h | h
    · exact absurd h (by simp)
    · simp [h]
  | true => simp

theorem transferDataWithSplitting_prep_ok (dflag : Bool) (env : SplitRunEnv)
    (h1 : env.source_conn_ok = true) (h2 : env.target_conn_ok = true)
    (h3 : env.schema_found = true) (h4 : env.ddl.create_schema_ok = true)
    (h5 : env.ddl.create_ok = true) (h6 : dflag = true ∨ env.truncate_ok = true) :
    transferDataWithSplitting dflag env =
      splitDispatch env
        ((if dflag then [DbEvent.dropTargetTable] else []) ++ [DbEvent.createTargetTable] ++
         (if dflag then [] else [DbEvent.truncateTarget])) := by
  unfold transferDataWithSplitting create_table_if_not_exists
  rw [h1, h2, h3, h4, h5]
  cases dflag with
  | false =>
    rcases h6 with h | h
    · exact absurd h (by simp)
    · simp [h]
  | true => simp

theorem tradDispatch_agg (env : TradEnv) (evs : List DbEvent) (N : Nat)
    (h7 : env.count_query = some N) (h8 : 0 < N) (h9 : env.batch_size ≠ 0) :
    ((tradDispatch env evs).result.success = true ↔
       ((tradDispatch env evs).outcomes.filter (fun r => !r.success)).length = 0) ∧
    (tradDispatch env evs).result.rows_transferred =
      some ((((tradDispatch env evs).outcomes.filter BatchOutcome.success).map
        BatchOutcome.rows_processed).sum) := by
  unfold tradDispatch
  rw [h7]
  simp only [get_row_count]
  rw [if_neg (by omega)]
  unfold pyFloorDiv
  rw [if_neg h9]
  simp only [aggregateOutcomes_eq, beq_iff_eq]
  exact ⟨trivial, trivial⟩

theorem createTempTablesLoop_ok (create_ok : Nat → Bool) (temp_count : Nat → Option Nat)
    (drop_ok : Nat → Bool) (rps rem : Int) (numSplits : Nat) :
    ∀ (n split_num : Nat) (off : Int) (names : List Nat),
      numSplits - split_num = n →
      (∀ i, split_num ≤ i → i < numSplits → create_ok i = true) →
      (createTempTablesLoop create_ok temp_count drop_ok rps rem numSplits
          split_num off names).result =
        Except.ok (names ++ List.range' split_num (numSplits - split_num)) := by
  intro n
  induction n with
  | zero =>
    intro split_num off names hn hok
    rw [createTempTablesLoop, dif_neg (by omega), hn]
    simp
  | succ n ih =>
    intro split_num off names hn hok
    rw [createTempTablesLoop, dif_pos (by omega)]
    have hc : create_ok split_num = true := hok split_num (Nat.le_refl _) (by omega)
    simp only [create_temp_table_from_source, hc, if_true]
    rw [ih (split_num + 1) _ (names ++ [split_num]) (by omega)
      (fun i hi1 hi2 => hok i (by omega) hi2)]
    have hrange : List.range' split_num (numSplits - split_num) =
        split_num :: List.range' (split_num + 1) (numSplits - (split_num + 1)) := by
      have hm : numSplits - split_num = (numSplits - (split_num + 1)) + 1 := by omega
      rw [hm, List.range'_succ]
    rw [hrange]
    simp

theorem createTempTablesFromSource_ok (env : SplitCreateEnv) (M : Nat)
    (h7 : env.count_query = some M) (h8 : 0 < M) (h9 : env.num_splits ≠ 0)
    (h10 : ∀ i, env.create_ok i = true) :
    (createTempTablesFromSource env).result =
      Except.ok (List.range env.num_splits.toNat) := by
  unfold createTempTablesFromSource
  rw [h7]
  simp only [get_row_count]
  rw [if_neg (by omega)]
  unfold pyFloorDiv pyMod
  rw [if_neg h9, if_neg h9]
  rw [createTempTablesLoop_ok env.create_ok env.temp_count_query env.drop_ok _ _
    env.num_splits.toNat env.num_splits.toNat 0 0 [] (by omega)
    (fun i _ _ => h10 i)]
  simp [List.range_eq_range']

theorem splitDispatch_agg (env : SplitRunEnv) (evs1 : List DbEvent) (M : Nat)
    (s7 : env.splitEnv.count_query = some M) (s8 : 0 < M)
    (s9 : env.splitEnv.num_splits ≠ 0)
    (s10 : ∀ i, env.splitEnv.create_ok i = true) :
    ((splitDispatch env evs1).result.success = true ↔
       ((splitDispatch env evs1).outcomes.filter (fun r => !r.success)).length = 0) ∧
    (splitDispatch env evs1).result.rows_transferred =
      some ((((splitDispatch env evs1).outcomes.filter BatchOutcome.success).map
        BatchOutcome.rows_processed).sum) := by
  unfold splitDispatch
  rw [createTempTablesFromSource_ok env.splitEnv M s7 s8 s9 s10]
  by_cases hnil : List.range env.splitEnv.num_splits.toNat = []
  · simp [hnil]
  · simp [hnil, aggregateOutcomes_eq]

/-- C3: in a run that reaches dispatch (connections validated, schema found,
target prepared, nonzero source count, nonzero batch size / split count, and
in split mode every segment materialized), the returned result has
success = true iff the number of failed units is zero, and rows_transferred
is the sum of rows_processed over exactly the successful units — in both the
traditional and the splitting orchestrator. -/
theorem aggregation_success_iff_no_failures
    (dflag : Bool) (env : TradEnv) (senv : SplitRunEnv) (N M : Nat)
    (h1 : env.source_conn_ok = true) (h2 : env.target_conn_ok = true)
    (h3 : env.schema_found = true) (h4 : env.ddl.create_schema_ok = true)
    (h5 : env.ddl.create_ok = true) (h6 : dflag = true ∨ env.truncate_ok = true)
    (h7 : env.count_query = some N) (h8 : 0 < N) (h9 : env.batch_size ≠ 0)
    (s1 : senv.source_conn_ok = true) (s2 : senv.target_conn_ok = true)
    (s3 : senv.schema_found = true) (s4 : senv.ddl.create_schema_ok = true)
    (s5 : senv.ddl.create_ok = true) (s6 : dflag = true ∨ senv.truncate_ok = true)
    (s7 : senv.splitEnv.count_query = some M) (s8 : 0 < M)
    (s9 : senv.splitEnv.num_splits ≠ 0)
    (s10 : ∀ i, senv.splitEnv.create_ok i = true) :
    (((transferDataTraditional dflag env).result.success = true ↔
        (((transferDataTraditional dflag env).outcomes.filter
          (fun r => !r.success)).length = 0)) ∧
     (transferDataTraditional dflag env).result.rows_transferred =
       some ((((transferDataTraditional dflag env).outcomes.filter
         BatchOutcome.success).map BatchOutcome.rows_processed).sum)) ∧
    (((transferDataWithSplitting dflag senv).result.success = true ↔
        (((transferDataWithSplitting dflag senv).outcomes.filter
          (fun r => !r.success)).length = 0)) ∧
     (transferDataWithSplitting dflag senv).result.rows_transferred =
       some ((((transferDataWithSplitting dflag senv).outcomes.filter
         BatchOutcome.success).map BatchOutcome.rows_processed).sum)) := by
  constructor
  · rw [transferDataTraditional_prep_ok dflag env h1 h2 h3 h4 h5 h6]
    exact tradDispatch_agg env _ N h7 h8 h9
  · rw [transferDataWithSplitting_prep_ok dflag senv s1 s2 s3 s4 s5 s6]
    exact splitDispatch_agg senv _ M s7 s8 s9 s10

/-- Witness: the aggregation theorem instantiated at a concrete healthy
environment with 5 source rows, batch size 2, and 3 splits. -/
theorem aggregation_success_iff_no_failures_witness :
    ((transferDataTraditional true (mkTradEnv ⟨true, true, true⟩ (some 5) 2)).result.success
        = true ↔
      (((transferDataTraditional true
          (mkTradEnv ⟨true, true, true⟩ (some 5) 2)).outcomes.filter
        (fun r => !r.success)).length = 0)) ∧
    (transferDataTraditional true (mkTradEnv ⟨true, true, true⟩ (some 5) 2)).result.rows_transferred =
      some ((((transferDataTraditional true
          (mkTradEnv ⟨true, true, true⟩ (some 5) 2)).outcomes.filter
        BatchOutcome.success).map BatchOutcome.rows_processed).sum) :=
  (aggregation_success_iff_no_failures true
    (mkTradEnv ⟨true, true, true⟩ (some 5) 2)
    (mkSplitRunEnv ⟨true, true, true⟩
      (mkSplitCreateEnv (some 5) 3 (fun _ => true)) 2) 5 5
    rfl rfl rfl rfl rfl (Or.inl rfl) rfl (by decide) (by decide)
    rfl rfl rfl rfl rfl (Or.inl rfl) rfl (by decide) (by decide)
    (fun _ => rfl)).1

/-- C7: with an empty source (row count 0), both the traditional and the
splitting run return a trivially successful result with rows_transferred = 0
and zero units dispatched. -/
theorem empty_source_trivial_success (dflag : Bool) (env : TradEnv) (senv : SplitRunEnv)
    (h1 : env.source_conn_ok = true) (h2 : env.target_conn_ok = true)
    (h3 : env.schema_found = true) (h4 : env.ddl.create_schema_ok = true)
    (h5 : env.ddl.create_ok = true) (h6 : dflag = true ∨ env.truncate_ok = true)
    (h7 : env.count_query = some 0)
    (s1 : senv.source_conn_ok = true) (s2 : senv.target_conn_ok = true)
    (s3 : senv.schema_found = true) (s4 : senv.ddl.create_schema_ok = true)
    (s5 : senv.ddl.create_ok = true) (s6 : dflag = true ∨ senv.truncate_ok = true)
    (s7 : senv.splitEnv.count_query = some 0) :
    ((transferDataTraditional dflag env).result.success = true ∧
     (transferDataTraditional dflag env).result.rows_transferred = some 0 ∧
     (transferDataTraditional dflag env).result.units_processed = some 0 ∧
     (transferDataTraditional dflag env).outcomes = []) ∧
    ((transferDataWithSplitting dflag senv).result.success = true ∧
     (transferDataWithSplitting dflag senv).result.rows_transferred = some 0 ∧
     (transferDataWithSplitting dflag senv).result.units_processed = some 0 ∧
     (transferDataWithSplitting dflag senv).outcomes = []) := by
  constructor
  · rw [transferDataTraditional_prep_ok dflag env h1 h2 h3 h4 h5 h6]
    unfold tradDispatch
    rw [h7]
    simp [get_row_count]
  · rw [transferDataWithSplitting_prep_ok dflag senv s1 s2 s3 s4 s5 s6]
    unfold splitDispatch createTempTablesFromSource
    rw [s7]
    simp [get_row_count]

/-- Witness: the empty-source theorem instantiated at concrete healthy
environments whose source count is 0. -/
theorem empty_source_trivial_success_witness :
    ((transferDataTraditional false (mkTradEnv ⟨true, true, true⟩ (some 0) 10000)).result.success = true ∧
     (transferDataTraditional false (mkTradEnv ⟨true, true, true⟩ (some 0) 10000)).result.rows_transferred = some 0 ∧
     (transferDataTraditional false (mkTradEnv ⟨true, true, true⟩ (some 0) 10000)).result.units_processed = some 0 ∧
     (transferDataTraditional false (mkTradEnv ⟨true, true, true⟩ (some 0) 10000)).outcomes = []) ∧
    ((transferDataWithSplitting false (mkSplitRunEnv ⟨true, true, true⟩
        (mkSplitCreateEnv (some 0) 10 (fun _ => true)) 10000)).result.success = true ∧
     (transferDataWithSplitting false (mkSplitRunEnv ⟨true, true, true⟩
        (mkSplitCreateEnv (some 0) 10 (fun _ => true)) 10000)).result.rows_transferred = some 0 ∧
     (transferDataWithSplitting false (mkSplitRunEnv ⟨true, true, true⟩
        (mkSplitCreateEnv (some 0) 10 (fun _ => true)) 10000)).result.units_processed = some 0 ∧
     (transferDataWithSplitting false (mkSplitRunEnv ⟨true, true, true⟩
        (mkSplitCreateEnv (some 0) 10 (fun _ => true)) 10000)).outcomes = []) :=
  empty_source_trivial_success false
    (mkTradEnv ⟨true, true, true⟩ (some 0) 10000)
    (mkSplitRunEnv ⟨true, true, true⟩ (mkSplitCreateEnv (some 0) 10 (fun _ => true)) 10000)
    rfl rfl rfl rfl rfl (Or.inr rfl) rfl
    rfl rfl rfl rfl rfl (Or.inr rfl) rfl

/-- C10 (implicit): `get_row_count` converts a failing COUNT query into 0, so
after successful validation and preparation a count failure against the
source is indistinguishable from an empty source — the whole run output is
identical — and the job reports a successful result with
rows_transferred = 0 instead of a failure. -/
theorem count_failure_reported_as_empty (dflag : Bool) (env : TradEnv)
    (h7 : env.count_query = none)
    (h1 : env.source_conn_ok = true) (h2 : env.target_conn_ok = true)
    (h3 : env.schema_found = true) (h4 : env.ddl.create_schema_ok = true)
    (h5 : env.ddl.create_ok = true) (h6 : dflag = true ∨ env.truncate_ok = true) :
    get_row_count none = 0 ∧
    transferDataTraditional dflag env =
      transferDataTraditional dflag { env with count_query := some 0 } ∧
    (transferDataTraditional dflag env).result.success = true ∧
    (transferDataTraditional dflag env).result.rows_transferred = some 0 := by
  refine ⟨rfl, ?_, ?_, ?_⟩
  · unfold transferDataTraditional tradDispatch
    rw [h7]
    rfl
  · rw [transferDataTraditional_prep_ok dflag env h1 h2 h3 h4 h5 h6]
    unfold tradDispatch
    rw [h7]
    rfl
  · rw [transferDataTraditional_prep_ok dflag env h1 h2 h3 h4 h5 h6]
    unfold tradDispatch
    rw [h7]
    rfl

/-- Witness: the count-failure theorem instantiated at a concrete healthy
environment whose source COUNT query raises. -/
theorem count_failure_reported_as_empty_witness :
    get_row_count none = 0 ∧
    transferDataTraditional false (mkTradEnv ⟨true, true, true⟩ none 10) =
      transferDataTraditional false
        { mkTradEnv ⟨true, true, true⟩ none 10 with count_query := some 0 } ∧
    (transferDataTraditional false (mkTradEnv ⟨true, true, true⟩ none 10)).result.success = true ∧
    (transferDataTraditional false (mkTradEnv ⟨true, true, true⟩ none 10)).result.rows_transferred = some 0 :=
  count_failure_reported_as_empty false (mkTradEnv ⟨true, true, true⟩ none 10)
    rfl rfl rfl rfl rfl rfl (Or.inr rfl)

/-- C9 as stated is false: with dropIfExists set and the DROP failing during
target preparation, the job is not aborted — the drop failure is swallowed,
CREATE TABLE IF NOT EXISTS still runs, and the whole run succeeds. -/
theorem ddl_drop_failure_not_fatal :
    (create_table_if_not_exists true ⟨true, false, true⟩).1 = Except.ok () ∧
    (transferDataTraditional true
      (mkTradEnv ⟨true, false, true⟩ (some 4) 2)).result.success = true :=
  ⟨rfl, rfl⟩

/-- C9 amended: when dropIfExists is set, the DROP and the CREATE are always
issued; a schema-creation or CREATE failure during preparation raises and
aborts the whole job with a failure TransferResult; but a failure of the DROP
alone is caught and merely logged — preparation completes and the job
proceeds (with CREATE TABLE IF NOT EXISTS possibly leaving the old table in
place). -/
theorem ddl_failure_during_preparation (env : TradEnv) (dflag : Bool)
    (h1 : env.source_conn_ok = true) (h2 : env.target_conn_ok = true)
    (h3 : env.schema_found = true) :
    (env.ddl.create_schema_ok = true →
      (create_table_if_not_exists true env.ddl).2 =
        [DbEvent.dropTargetTable, DbEvent.createTargetTable]) ∧
    (env.ddl.create_schema_ok = true → env.ddl.create_ok = false →
      (transferDataTraditional dflag env).result = failResult "Failed to create table") ∧
    (env.ddl.create_schema_ok = false →
      (transferDataTraditional dflag env).result = failResult "Failed to create schema") ∧
    (env.ddl.create_schema_ok = true → env.ddl.create_ok = true →
      (create_table_if_not_exists true env.ddl).1 = Except.ok ()) := by
  refine ⟨?_, ?_, ?_, ?_⟩
  · intro h4
    unfold create_table_if_not_exists
    cases hc : env.ddl.create_ok <;> simp [h4, hc]
  · intro h4 h5
    unfold transferDataTraditional create_table_if_not_exists
    rw [h1, h2, h3, h4, h5]
    simp
  · intro h4
    unfold transferDataTraditional create_table_if_not_exists
    rw [h1, h2, h3, h4]
    simp
  · intro h4 h5
    unfold create_table_if_not_exists
    simp [h4, h5]

/-- Witness: the amended DDL theorem - instantiated with a failing CREATE,
which aborts the job with the corresponding failure result. -/
theorem ddl_failure_during_preparation_witness :
    (transferDataTraditional true (mkTradEnv ⟨true, false, false⟩ (some 4) 2)).result =
      failResult "Failed to create table" :=
  (ddl_failure_during_preparation (mkTradEnv ⟨true, false, false⟩ (some 4) 2) true
    rfl rfl rfl).2.1 rfl rfl

/-- C8 as stated is false: materializing a segment whose actual row count (3)
differs from the requested limit (5) returns success with just an info log of
the actual count: no comparison against the requested size happens and no
warning is emitted. -/
theorem segment_sanity_check_counterexample :
    (create_temp_table_from_source 0 5 true (some 3)).1 = true ∧
    (create_temp_table_from_source 0 5 true (some 3)).2 = [(LogLevel.info, 3)] ∧
    ((create_temp_table_from_source 0 5 true (some 3)).2.filter
      (fun e => decide (e.1 = LogLevel.warning))) = [] ∧
    (3 : Nat) ≠ 5 := by
  refine ⟨rfl, rfl, rfl, by decide⟩

/-- C8 amended: after a segment is materialized, its actual row count is
queried and logged at info level only; the requested size is never compared
against it, no warning is ever emitted (on success or failure), and creation
returns success whenever the CREATE itself succeeded, regardless of any
mismatch. -/
theorem segment_rowcount_logged_not_compared (offset limit : Int) (cnt : Option Nat) :
    create_temp_table_from_source offset limit true cnt =
      (true, [(LogLevel.info, get_row_count cnt)]) ∧
    (∀ ok : Bool, ((create_temp_table_from_source offset limit ok cnt).2.filter
      (fun e => decide (e.1 = LogLevel.warning))) = []) := by
  constructor
  · rfl
  · intro ok
    cases ok <;> rfl

/-- C5 as stated is false: with batchSize = -1 (≤ 0) and a healthy 5-row
source, the traditional run does not fail fast with a configuration error
before it starts — it prepares and truncates the target (a mutation) and
then returns a successful result with zero batches dispatched. -/
theorem config_validation_counterexample :
    (transferDataTraditional false (mkTradEnv ⟨true, true, true⟩ (some 5) (-1))).result.success
      = true ∧
    (transferDataTraditional false (mkTradEnv ⟨true, true, true⟩ (some 5) (-1))).result.error
      = none ∧
    DbEvent.truncateTarget ∈
      (transferDataTraditional false (mkTradEnv ⟨true, true, true⟩ (some 5) (-1))).events ∧
    (transferDataTraditional false (mkTradEnv ⟨true, true, true⟩ (some 5) (-1))).outcomes
      = [] := by
  refine ⟨rfl, rfl, ?_, rfl⟩
  decide

/-- C5 amended: neither batchSize nor numSplits is validated, and the job
always runs through target preparation (a mutation) first.  batchSize = 0 or
numSplits = 0 only raises ZeroDivisionError at planning time — after the
target was prepared — reported as a generic failure, not a configuration
error; batchSize < 0 (with at least 2 source rows) or numSplits < 0 makes the
planning range empty, so the run dispatches zero units and reports success. -/
theorem config_not_validated (dflag : Bool) (env : TradEnv) (senv : SplitRunEnv) (N M : Nat)
    (h1 : env.source_conn_ok = true) (h2 : env.target_conn_ok = true)
    (h3 : env.schema_found = true) (h4 : env.ddl.create_schema_ok = true)
    (h5 : env.ddl.create_ok = true) (h6 : dflag = true ∨ env.truncate_ok = true)
    (h7 : env.count_query = some N) (h8 : 0 < N)
    (s1 : senv.source_conn_ok = true) (s2 : senv.target_conn_ok = true)
    (s3 : senv.schema_found = true) (s4 : senv.ddl.create_schema_ok = true)
    (s5 : senv.ddl.create_ok = true) (s6 : dflag = true ∨ senv.truncate_ok = true)
    (s7 : senv.splitEnv.count_query = some M) (s8 : 0 < M) :
    (env.batch_size = 0 →
      (transferDataTraditional dflag env).result =
        failResult "integer division or modulo by zero" ∧
      DbEvent.createTargetTable ∈ (transferDataTraditional dflag env).events) ∧
    (env.batch_size ≤ -1 → 2 ≤ N →
      (transferDataTraditional dflag env).result.success = true ∧
      (transferDataTraditional dflag env).result.rows_transferred = some 0 ∧
      (transferDataTraditional dflag env).outcomes = [] ∧
      DbEvent.createTargetTable ∈ (transferDataTraditional dflag env).events) ∧
    (senv.splitEnv.num_splits = 0 →
      (transferDataWithSplitting dflag senv).result =
        failResult "integer division or modulo by zero" ∧
      DbEvent.createTargetTable ∈ (transferDataWithSplitting dflag senv).events) ∧
    (senv.splitEnv.num_splits ≤ -1 →
      (transferDataWithSplitting dflag senv).result.success = true ∧
      (transferDataWithSplitting dflag senv).result.rows_transferred = some 0 ∧
      (transferDataWithSplitting dflag senv).outcomes = [] ∧
      DbEvent.createTargetTable ∈ (transferDataWithSplitting dflag senv).events) := by
  refine ⟨?_, ?_, ?_, ?_⟩
  · intro hb
    rw [transferDataTraditional_prep_ok dflag env h1 h2 h3 h4 h5 h6]
    unfold tradDispatch
    rw [h7]
    simp only [get_row_count]
    rw [if_neg (by omega)]
    unfold pyFloorDiv
    rw [if_pos hb]
    refine ⟨rfl, ?_⟩
    cases dflag <;> simp
  · intro hb hN2
    rw [transferDataTraditional_prep_ok dflag env h1 h2 h3 h4 h5 h6]
    unfold tradDispatch
    rw [h7]
    simp only [get_row_count]
    rw [if_neg (by omega)]
    unfold pyFloorDiv
    rw [if_neg (by omega)]
    have htb : (Int.fdiv ((N : Int) + env.batch_size - 1) env.batch_size).toNat = 0 := by
      have hle := fdiv_le_zero_of_lt ((N : Int) + env.batch_size - 1) env.batch_size hb
        (by omega)
      omega
    simp only [htb, tradOutcomes, List.range_zero, List.map_nil]
    refine ⟨by trivial, by trivial, by trivial, ?_⟩
    cases dflag <;> simp
  · intro hns
    rw [transferDataWithSplitting_prep_ok dflag senv s1 s2 s3 s4 s5 s6]
    unfold splitDispatch createTempTablesFromSource
    rw [s7]
    simp only [get_row_count]
    rw [if_neg (by omega)]
    unfold pyFloorDiv pyMod
    rw [if_pos hns, if_pos hns]
    refine ⟨rfl, ?_⟩
    cases dflag <;> simp
  · intro hns
    rw [transferDataWithSplitting_prep_ok dflag senv s1 s2 s3 s4 s5 s6]
    unfold splitDispatch createTempTablesFromSource
    rw [s7]
    simp only [get_row_count]
    rw [if_neg (by omega)]
    unfold pyFloorDiv pyMod
    rw [if_neg (by omega), if_neg (by omega)]
    have hzero : senv.splitEnv.num_splits.toNat = 0 := by omega
    simp only [hzero]
    rw [createTempTablesLoop]
    simp only [Nat.lt_irrefl, dite_false]
    refine ⟨rfl, rfl, rfl, ?_⟩
    cases dflag <;> simp

/-- Witness: the amended configuration theorem instantiated with batch size 0
(traditional) and split count 0 (splitting) against concrete healthy 5-row
environments. -/
theorem config_not_validated_witness :
    ((transferDataTraditional true (mkTradEnv ⟨true, true, true⟩ (some 5) 0)).result =
       failResult "integer division or modulo by zero" ∧
     DbEvent.createTargetTable ∈
       (transferDataTraditional true (mkTradEnv ⟨true, true, true⟩ (some 5) 0)).events) :=
  (config_not_validated true (mkTradEnv ⟨true, true, true⟩ (some 5) 0)
    (mkSplitRunEnv ⟨true, true, true⟩ (mkSplitCreateEnv (some 5) 0 (fun _ => true)) 2) 5 5
    rfl rfl rfl rfl rfl (Or.inl rfl) rfl (by decide)
    rfl rfl rfl rfl rfl (Or.inl rfl) rfl (by decide)).1 rfl

theorem createTempTablesLoop_fail (create_ok : Nat → Bool) (temp_count : Nat → Option Nat)
    (drop_ok : Nat → Bool) (rps rem : Int) (numSplits k : Nat)
    (hk : k < numSplits) (hfail : create_ok k = false) :
    ∀ (n split_num : Nat) (off : Int) (names : List Nat),
      numSplits - split_num = n → split_num ≤ k →
      (∀ i, split_num ≤ i → i < k → create_ok i = true) →
      ((createTempTablesLoop create_ok temp_count drop_ok rps rem numSplits
          split_num off names).result =
        Except.error "Failed to create temporary table" ∧
       (createTempTablesLoop create_ok temp_count drop_ok rps rem numSplits
          split_num off names).created =
        names ++ List.range' split_num (k - split_num) ∧
       (createTempTablesLoop create_ok temp_count drop_ok rps rem numSplits
          split_num off names).remaining =
        (names ++ List.range' split_num (k - split_num)).filter (fun i => !(drop_ok i)) ∧
       (∀ i, (i ∈ names ∨ (split_num ≤ i ∧ i ≤ k)) →
         DbEvent.dropTempTable i ∈
           (createTempTablesLoop create_ok temp_count drop_ok rps rem numSplits
             split_num off names).events)) := by
  intro n
  induction n with
  | zero =>
    intro split_num off names hn hsk hok
    exfalso
    omega
  | succ n ih =>
    intro split_num off names hn hsk hok
    rw [createTempTablesLoop, dif_pos (by omega)]
    by_cases hek : split_num = k
    · subst hek
      simp only [create_temp_table_from_source, hfail, Bool.false_eq_true, if_false,
        Nat.sub_self, List.range'_zero, List.append_nil]
      refine ⟨by trivial, by trivial, by trivial, ?_⟩
      intro i hi
      apply List.mem_cons_of_mem
      apply List.mem_map_of_mem
      rcases hi with hi | ⟨hi1, hi2⟩
      · exact List.mem_append_left _ hi
      · have hik : i = split_num := by omega
        subst hik
        exact List.mem_append_right _ (List.mem_cons_self _ _)
    · have hc : create_ok split_num = true := hok split_num (Nat.le_refl _) (by omega)
      simp only [create_temp_table_from_source, hc, if_true]
      obtain ⟨ih1, ih2, ih3, ih4⟩ := ih (split_num + 1)
        (off + (if (split_num : Int) < rem then rps + 1 else rps))
        (names ++ [split_num]) (by omega) (by omega)
        (fun i hi1 hi2 => hok i (by omega) hi2)
      have hr : List.range' split_num (k - split_num) =
          split_num :: List.range' (split_num + 1) (k - (split_num + 1)) := by
        have hm : k - split_num = (k - (split_num + 1)) + 1 := by omega
        rw [hm, List.range'_succ]
      refine ⟨ih1, ?_, ?_, ?_⟩
      · rw [ih2, hr]
        simp
      · rw [ih3, hr]
        simp
      · intro i hi
        apply List.mem_cons_of_mem
        apply ih4 i
        rcases hi with hi | ⟨hi1, hi2⟩
        · exact Or.inl (List.mem_append_left _ hi)
        · by_cases hisp : i = split_num
          · subst hisp
            exact Or.inl (List.mem_append_right _ (List.mem_cons_self _ _))
          · exact Or.inr ⟨by omega, hi2⟩

/-- C6: if creating the k-th segment fails (every earlier creation having
succeeded), `create_temp_tables_from_source` issues a drop for every segment
created before the failure, so — the drops succeeding — no partial segment
set remains, the creation raises, and the split-mode job returns a failure
TransferResult carrying the error. -/
theorem split_creation_atomicity (dflag : Bool) (senv : SplitRunEnv) (k M : Nat)
    (hM : senv.splitEnv.count_query = some M) (h0 : 0 < M)
    (hpos : 0 < senv.splitEnv.num_splits)
    (hk : k < senv.splitEnv.num_splits.toNat)
    (hok : ∀ i, i < k → senv.splitEnv.create_ok i = true)
    (hfail : senv.splitEnv.create_ok k = false)
    (hdrop : ∀ i, senv.splitEnv.drop_ok i = true)
    (s1 : senv.source_conn_ok = true) (s2 : senv.target_conn_ok = true)
    (s3 : senv.schema_found = true) (s4 : senv.ddl.create_schema_ok = true)
    (s5 : senv.ddl.create_ok = true) (s6 : dflag = true ∨ senv.truncate_ok = true) :
    (createTempTablesFromSource senv.splitEnv).result =
      Except.error "Failed to create temporary table" ∧
    (createTempTablesFromSource senv.splitEnv).created = List.range k ∧
    (createTempTablesFromSource senv.splitEnv).remaining = [] ∧
    (∀ i, (i ∈ (createTempTablesFromSource senv.splitEnv).created ∨ i = k) →
       DbEvent.dropTempTable i ∈ (createTempTablesFromSource senv.splitEnv).events) ∧
    (transferDataWithSplitting dflag senv).result =
      failResult "Failed to create temporary table" := by
  obtain ⟨l1, l2, l3, l4⟩ := createTempTablesLoop_fail senv.splitEnv.create_ok
    senv.splitEnv.temp_count_query senv.splitEnv.drop_ok
    (Int.fdiv (M : Int) senv.splitEnv.num_splits)
    (Int.fmod (M : Int) senv.splitEnv.num_splits)
    senv.splitEnv.num_splits.toNat k hk hfail
    senv.splitEnv.num_splits.toNat 0 0 [] (by omega) (by omega)
    (fun i _ hi2 => hok i hi2)
  have hred : createTempTablesFromSource senv.splitEnv =
      createTempTablesLoop senv.splitEnv.create_ok senv.splitEnv.temp_count_query
        senv.splitEnv.drop_ok (Int.fdiv (M : Int) senv.splitEnv.num_splits)
        (Int.fmod (M : Int) senv.splitEnv.num_splits)
        senv.splitEnv.num_splits.toNat 0 0 [] := by
    unfold createTempTablesFromSource
    rw [hM]
    simp only [get_row_count]
    rw [if_neg (by omega)]
    unfold pyFloorDiv pyMod
    rw [if_neg (by omega), if_neg (by omega)]
  have hcreated : ([] : List Nat) ++ List.range' 0 (k - 0) = List.range k := by
    simp [List.range_eq_range']
  refine ⟨?_, ?_, ?_, ?_, ?_⟩
  · rw [hred, l1]
  · rw [hred, l2, hcreated]
  · rw [hred, l3, hcreated]
    apply List.filter_eq_nil_iff.mpr
    intro a ha
    simp [hdrop a]
  · intro i hi
    rw [hred]
    apply l4 i
    apply Or.inr
    rcases hi with hi | hik
    · rw [hred, l2, hcreated] at hi
      have := List.mem_range.mp hi
      omega
    · omega
  · rw [transferDataWithSplitting_prep_ok dflag senv s1 s2 s3 s4 s5 s6]
    unfold splitDispatch
    rw [hred, l1]

/-- Witness: the split-creation atomicity theorem instantiated with 3
configured splits over a 10-row source where segment 0 materializes and
segment 1 fails. -/
theorem split_creation_atomicity_witness :
    (createTempTablesFromSource
        (mkSplitCreateEnv (some 10) 3 (fun i => decide (i = 0)))).result =
      Except.error "Failed to create temporary table" ∧
    (createTempTablesFromSource
        (mkSplitCreateEnv (some 10) 3 (fun i => decide (i = 0)))).remaining = [] :=
  have h := split_creation_atomicity false
    (mkSplitRunEnv ⟨true, true, true⟩
      (mkSplitCreateEnv (some 10) 3 (fun i => decide (i = 0))) 4)
    1 10 rfl (by decide) (by decide) (by decide)
    (by decide) (by decide)
    (fun _ => rfl) rfl rfl rfl rfl rfl (Or.inr rfl)
  ⟨h.1, h.2.2.1⟩

end PythonETL
